import Mathlib

/-!
Shallow embedding of `src/plugins/src/signaller/imp.rs` (the WHIP signaller of
x186k/webrtcsink) and verification of the spec claims about it.

The embedding mirrors the source: the sender loop keeps one shared `xsdp`
string buffer (not keyed by session id), `do_whip` appends the
end-of-candidates line and performs a single POST to a hard-coded URL, the
`ConsumerRemoved` and `GatherTimeout` arms only print, and the facade
operations enqueue messages only when the mailbox sender is present.
External collaborators (the HTTP stack, the SDP parser of `gst_sdp`) are
passed in as explicit function arguments.
-/

namespace Webrtcsink

/-- `WhipMessage` enum of `imp.rs` (lines 45-52): the messages carried by the
signaller mailbox. `candix` is the `u32` media-line index, modelled as `Nat`. -/
inductive WhipMessage where
  | Ice (id : String) (candidate : String) (candix : Nat)
  | Sdp (id : String) (sdp : String)
  | ConsumerRemoved (id : String)
  | GatherTimeout (id : String)
deriving DecidableEq, Repr

/-- `Settings` struct of `imp.rs` (lines 30-34): the configured signalling
address and CA file path (`PathBuf` modelled as `String`). -/
structure Settings where
  address : Option String
  cafile : Option String
deriving DecidableEq, Repr

/-- `Default for Settings` (lines 36-43): the default address is the
WebSocket-looking URL, the CA file is unset. -/
def Settings.defaultSettings : Settings :=
  { address := some "ws://127.0.0.1:8443", cafile := none }

/-- Boolean substring test on character lists, used to embed Rust
`str::contains`. -/
def isSubstr (needle : List Char) : List Char → Bool
  | [] => needle.isEmpty
  | c :: t => needle.isPrefixOf (c :: t) || isSubstr needle t

/-- Rust `hay.contains(needle)` on `String`s. -/
def strContains (hay needle : String) : Bool :=
  isSubstr needle.data hay.data

/-- The sentinel test of the Ice arm (line 96):
`candidate.contains("candidate:18")`. -/
def isGatherSentinel (candidate : String) : Bool :=
  strContains candidate "candidate:18"

/-- `fun_name` (lines 280-282): the body of the `ConsumerRemoved` arm; it only
prints. We model a print by the line it emits. -/
def fun_name : List String :=
  ["..ConsumerRemoved"]

/-- The delay, in milliseconds, of the fallback timer spawned by the Sdp arm
(line 115). -/
def gatherTimeoutDelayMs : Nat := 500

/-- The message the fallback timer task enqueues after the delay (line 116):
note the id is the literal empty string, not the offer id. -/
def gatherTimerMessage : WhipMessage :=
  WhipMessage.GatherTimeout ""

/-- Observable output of processing one mailbox message in the sender loop:
the new shared buffer, the `do_whip` invocations `(peer id, buffer snapshot
passed in)`, the messages that spawned timer tasks will enqueue, and the
`println` lines. -/
structure StepOut where
  xsdp : String
  whips : List (String × String)
  spawned : List WhipMessage
  logs : List String
deriving DecidableEq, Repr

/-- One iteration of the sender loop of `Signaller::connect`
(lines 89-127), acting on the shared `xsdp` buffer:
- `Ice`: print; if the candidate text contains `"candidate:18"`, print and
  call `do_whip` with a clone of the buffer taken before appending; then
  append `a=<candidate>` plus newline to the buffer.
- `Sdp`: print, spawn the 500 ms timer task (which will enqueue
  `GatherTimeout` with the empty id), append the sdp text (no newline).
- `ConsumerRemoved`: `fun_name()` (print only).
- `GatherTimeout`: print only. -/
def sendLoopStep (xsdp : String) : WhipMessage → StepOut
  | WhipMessage.Ice id candidate _ =>
      if isGatherSentinel candidate then
        { xsdp := xsdp ++ "a=" ++ candidate ++ "\n",
          whips := [(id, xsdp)], spawned := [],
          logs := ["..ice", "..18."] }
      else
        { xsdp := xsdp ++ "a=" ++ candidate ++ "\n",
          whips := [], spawned := [],
          logs := ["..ice"] }
  | WhipMessage.Sdp _ sdp =>
      { xsdp := xsdp ++ sdp, whips := [],
        spawned := [gatherTimerMessage], logs := ["..sdp"] }
  | WhipMessage.ConsumerRemoved _ =>
      { xsdp := xsdp, whips := [], spawned := [], logs := fun_name }
  | WhipMessage.GatherTimeout _ =>
      { xsdp := xsdp, whips := [], spawned := [], logs := ["..GatherTimeout"] }

/-- The sender loop (`while let Some(msg) = whip_receiver.next().await`) run
over a list of received messages, threading the shared buffer and collecting
all observable outputs in order. -/
def sendLoop (xsdp : String) : List WhipMessage → StepOut
  | [] => { xsdp := xsdp, whips := [], spawned := [], logs := [] }
  | m :: ms =>
      let o := sendLoopStep xsdp m
      let r := sendLoop o.xsdp ms
      { xsdp := r.xsdp, whips := o.whips ++ r.whips,
        spawned := o.spawned ++ r.spawned, logs := o.logs ++ r.logs }

/-- The session ids of the sentinel Ice messages of a message list, in
arrival order: exactly these trigger `do_whip` calls. -/
def sentinelIds (msgs : List WhipMessage) : List String :=
  msgs.filterMap fun m =>
    match m with
    | WhipMessage.Ice id candidate _ =>
        if isGatherSentinel candidate then some id else none
    | _ => none

/-- The HTTP request `do_whip` builds (lines 291-297). -/
structure HttpRequest where
  url : String
  contentType : String
  body : String
deriving DecidableEq, Repr

/-- An HTTP response as `do_whip` consumes it: status code, optional
`Location` header, body bytes (as text). -/
structure HttpResponse where
  status : Nat
  location : Option String
  body : String
deriving DecidableEq, Repr

/-- The URL `do_whip` POSTs to (line 294): hard-coded, not taken from the
`address` setting. -/
def whipEndpointUrl : String := "http://192.168.86.3:7080/whip/endpoint/foo"

/-- Observable outcome of `do_whip` (lines 284-324):
- `transportFailed`: `send()?` or `bytes()?` returned `Err`, which `do_whip`
  propagates to its caller (the Ice arm then reports a signalling error);
- `panicked`: `SDPMessage::parse_buffer(..).unwrap()` panicked on an
  unparseable answer body;
- `delivered`: `element.handle_sdp` was called with the parsed answer. -/
inductive DoWhipEffect where
  | transportFailed
  | panicked
  | delivered (peerId : String) (answer : String)
deriving DecidableEq, Repr

/-- The single POST request `do_whip` issues (lines 285-297): the composed
sdp with `a=end-of-candidates` plus newline appended as body, content-type
`application/sdp`, and the hard-coded URL as destination. -/
def whipRequest (xsdp : String) : HttpRequest :=
  { url := whipEndpointUrl, contentType := "application/sdp",
    body := xsdp ++ "a=end-of-candidates\n" }

/-- `do_whip` (lines 284-324). `net` is the HTTP stack (reqwest), `parseSdp`
is `gst_sdp::SDPMessage::parse_buffer`; both are external collaborators
passed explicitly. Appends `a=end-of-candidates` plus newline to the composed
sdp, issues one POST with content-type `application/sdp` to the hard-coded
URL, and — without ever inspecting the response status — parses the response
body and hands it to `element.handle_sdp`. Returns the effect together with
the list of requests issued (always exactly one). -/
def do_whip (net : HttpRequest → Except Unit HttpResponse)
    (parseSdp : String → Option String) (peerId : String) (xsdp : String) :
    DoWhipEffect × List HttpRequest :=
  (match net (whipRequest xsdp) with
   | Except.error _ => DoWhipEffect.transportFailed
   | Except.ok r =>
      match parseSdp r.body with
      | none => DoWhipEffect.panicked
      | some answer => DoWhipEffect.delivered peerId answer,
   [whipRequest xsdp])

/-- Callbacks into the owning element. -/
inductive ElementCallback where
  | handleSdp (peerId : String) (answer : String)
  | signallingError
deriving DecidableEq, Repr

/-- How the Ice arm (lines 100-104) turns a `do_whip` outcome into element
callbacks: an `Err` return becomes `handle_signalling_error`; a successful
run already called `element.handle_sdp` inside `do_whip`; a panic unwinds
with no callback. -/
def iceArmCallbacks : DoWhipEffect → List ElementCallback
  | DoWhipEffect.transportFailed => [ElementCallback.signallingError]
  | DoWhipEffect.panicked => []
  | DoWhipEffect.delivered p a => [ElementCallback.handleSdp p a]

/-- A network stub that always fails at `send()` (connect/transport error). -/
def failNet : HttpRequest → Except Unit HttpResponse :=
  fun _ => Except.error ()

/-- A network stub that always answers with the given status, `Location`
header and body. -/
def okNet (status : Nat) (location : Option String) (body : String) :
    HttpRequest → Except Unit HttpResponse :=
  fun _ => Except.ok { status := status, location := location, body := body }

/-- Observable outcome of a facade enqueue operation (`handle_sdp`,
`handle_ice`, `consumer_removed`):
- `enqueued`: the message was handed to the mailbox sender;
- `errorReported`: `sender.send` failed and the spawned task called
  `element.handle_signalling_error`;
- `droppedSilently`: `state.websocket_sender` was `None`, so the
  `if let Some` body never ran and nothing at all happened. -/
inductive FacadeOutcome where
  | enqueued (msg : WhipMessage)
  | errorReported
  | droppedSilently
deriving DecidableEq, Repr

/-- `Signaller::handle_sdp` (lines 176-201). `senderPresent` is whether
`state.websocket_sender` is `Some`; `sendOk` is whether the mailbox accepts
the message (channel open and not full). -/
def Signaller.handle_sdp (senderPresent : Bool) (sendOk : Bool)
    (peer_id : String) (sdp : String) : FacadeOutcome :=
  if senderPresent then
    if sendOk then FacadeOutcome.enqueued (WhipMessage.Sdp peer_id sdp)
    else FacadeOutcome.errorReported
  else FacadeOutcome.droppedSilently

/-- `Signaller::handle_ice` (lines 203-237). The message is constructed —
including `sdp_m_line_index.unwrap()` — before the sender presence check, so
a `None` index panics unconditionally; the panic is modelled as
`Except.error`. -/
def Signaller.handle_ice (senderPresent : Bool) (sendOk : Bool)
    (peer_id : String) (candidate : String)
    (sdp_m_line_index : Option Nat) : Except String FacadeOutcome :=
  match sdp_m_line_index with
  | none => Except.error "panic: unwrap on None"
  | some candix =>
      Except.ok
        (if senderPresent then
          if sendOk then
            FacadeOutcome.enqueued (WhipMessage.Ice peer_id candidate candix)
          else FacadeOutcome.errorReported
        else FacadeOutcome.droppedSilently)

/-- `Signaller::consumer_removed` (lines 262-277): same enqueue shape as
`handle_sdp`, carrying a `ConsumerRemoved` message. -/
def Signaller.consumer_removed (senderPresent : Bool) (sendOk : Bool)
    (peer_id : String) : FacadeOutcome :=
  if senderPresent then
    if sendOk then FacadeOutcome.enqueued (WhipMessage.ConsumerRemoved peer_id)
    else FacadeOutcome.errorReported
  else FacadeOutcome.droppedSilently

/-- `State` struct of `imp.rs` (lines 22-28). The mailbox sender is modelled
by the list of messages still queued in the channel; the task handles by
presence flags. -/
structure State where
  websocket_sender : Option (List WhipMessage)
  send_task_handle : Bool
  receive_task_handle : Bool
deriving DecidableEq, Repr

/-- Observable outcome of `Signaller::stop`. -/
structure StopOut where
  state : State
  drained : StepOut
  sendJoinErrorLogged : Bool
deriving DecidableEq, Repr

/-- `Signaller::stop` (lines 239-260): take both task handles; if the sender
is present, close the channel — after which `whip_receiver.next()` yields the
already-queued messages and then `None`, so the sender loop processes exactly
the queued messages and exits — and block on joining both tasks.
`sendJoinErr` models the send task join returning `Err`; it is only logged
(`gst::warning!`), never propagated: `stop` is total and its result carries
the flag as a log. `xsdp` is the shared buffer at stop time. -/
def Signaller.stop (xsdp : String) (st : State) (sendJoinErr : Bool) :
    StopOut :=
  match st.websocket_sender with
  | none =>
      { state := { websocket_sender := none, send_task_handle := false,
                   receive_task_handle := false },
        drained := { xsdp := xsdp, whips := [], spawned := [], logs := [] },
        sendJoinErrorLogged := false }
  | some queued =>
      { state := { websocket_sender := none, send_task_handle := false,
                   receive_task_handle := false },
        drained := sendLoop xsdp queued,
        sendJoinErrorLogged := sendJoinErr }

/-! ## Helper lemmas shared by the claim theorems -/

/-- The `do_whip` calls issued by the sender loop carry exactly the ids of
the sentinel Ice messages, in arrival order, whatever the starting buffer. -/
theorem sendLoop_whips_ids (xsdp : String) (msgs : List WhipMessage) :
    ((sendLoop xsdp msgs).whips.map Prod.fst) = sentinelIds msgs := by
  induction msgs generalizing xsdp with
  | nil => rfl
  | cons m ms ih =>
    cases m with
    | Ice id candidate candix =>
        by_cases h : isGatherSentinel candidate = true
        · simp [sendLoop, sendLoopStep, sentinelIds, h, ih]
        · simp [sendLoop, sendLoopStep, sentinelIds, h, ih]
    | Sdp id sdp => simp [sendLoop, sendLoopStep, sentinelIds, ih]
    | ConsumerRemoved id => simp [sendLoop, sendLoopStep, sentinelIds, ih]
    | GatherTimeout id => simp [sendLoop, sendLoopStep, sentinelIds, ih]

/-- Every `do_whip` call recorded by the sender loop originates from some
sentinel Ice message of the processed list with the same session id. -/
theorem sendLoop_whips_mem (xsdp : String) (msgs : List WhipMessage)
    (p : String × String) (hp : p ∈ (sendLoop xsdp msgs).whips) :
    ∃ c n, WhipMessage.Ice p.1 c n ∈ msgs ∧ isGatherSentinel c = true := by
  induction msgs generalizing xsdp with
  | nil => simp [sendLoop] at hp
  | cons m ms ih =>
    simp only [sendLoop, List.mem_append] at hp
    cases hp with
    | inl hstep =>
        cases m with
        | Ice id candidate candix =>
            by_cases h : isGatherSentinel candidate = true
            · simp [sendLoopStep, h] at hstep
              subst hstep
              exact ⟨candidate, candix, by simp, h⟩
            · simp [sendLoopStep, h] at hstep
        | Sdp id sdp => simp [sendLoopStep] at hstep
        | ConsumerRemoved id => simp [sendLoopStep] at hstep
        | GatherTimeout id => simp [sendLoopStep] at hstep
    | inr hrest =>
        obtain ⟨c, n, hmem, hs⟩ := ih _ hrest
        exact ⟨c, n, List.mem_cons_of_mem _ hmem, hs⟩

/-- `do_whip` always issues exactly the one request built by `whipRequest`,
whatever the network and parser do. -/
theorem do_whip_requests (net : HttpRequest → Except Unit HttpResponse)
    (parseSdp : String → Option String) (peerId xsdp : String) :
    (do_whip net parseSdp peerId xsdp).2 = [whipRequest xsdp] := rfl

/-! ## Claim theorems -/

/-- Claim C1, counterexample: the sender loop has no per-session dedup — it
calls `do_whip` on every Ice message whose candidate text contains
`"candidate:18"`. Processing two such candidates for the one session `"p1"`
issues two `do_whip` calls for `"p1"`, refuting the at-most-once-per-session
claim at a concrete input. -/
theorem C1_counterexample :
    ((sendLoop ""
        [WhipMessage.Ice "p1" "candidate:18 1 udp 2 1.2.3.4 9 typ host" 0,
         WhipMessage.Ice "p1" "candidate:18 2 udp 2 5.6.7.8 9 typ host" 0]).whips.map
      Prod.fst) = ["p1", "p1"] := by decide

/-- Claim C1, amended: the sender loop issues exactly one `do_whip` call per
processed Ice message whose candidate text contains `"candidate:18"`,
carrying that message's session id, in arrival order — with no per-session
deduplication, so several sentinel candidates for one session each trigger
their own WHIP exchange. -/
theorem C1_amended (xsdp : String) (msgs : List WhipMessage) :
    ((sendLoop xsdp msgs).whips.map Prod.fst) = sentinelIds msgs :=
  sendLoop_whips_ids xsdp msgs

/-- Claim C2, counterexample: processing an `SdpOffer` for `"p2"` followed by
the `GatherTimeout` message its timer enqueues triggers no `do_whip` call at
all — the `GatherTimeout` arm only prints — refuting the claim that the
timeout triggers exactly one WHIP exchange. -/
theorem C2_counterexample :
    (sendLoop ""
        [WhipMessage.Sdp "p2" "v=0\n", WhipMessage.GatherTimeout ""]).whips
      = [] := by decide

/-- Claim C2, amended: processing a `GatherTimeout` message is a no-op apart
from a log line — the buffer is unchanged and no `do_whip` call is made — so
when no sentinel candidate (text containing `"candidate:18"`) is ever
processed, no WHIP exchange occurs at all, 500 ms timer notwithstanding. -/
theorem C2_amended (xsdp id : String) (msgs : List WhipMessage)
    (h : sentinelIds msgs = []) :
    sendLoopStep xsdp (WhipMessage.GatherTimeout id) =
      { xsdp := xsdp, whips := [], spawned := [],
        logs := ["..GatherTimeout"] } ∧
    (sendLoop xsdp msgs).whips = [] := by
  refine ⟨rfl, ?_⟩
  have hmap := sendLoop_whips_ids xsdp msgs
  rw [h] at hmap
  exact List.map_eq_nil_iff.mp hmap

/-- Witness for C2_amended at the concrete run of the C2 scenario: an offer
for `"p2"` and the timer's `GatherTimeout`, no sentinel candidate. -/
theorem C2_amended_witness :
    sentinelIds [WhipMessage.Sdp "p2" "v=0\n", WhipMessage.GatherTimeout ""]
        = [] ∧
    (sendLoopStep "" (WhipMessage.GatherTimeout "") =
      { xsdp := "", whips := [], spawned := [],
        logs := ["..GatherTimeout"] } ∧
    (sendLoop ""
        [WhipMessage.Sdp "p2" "v=0\n", WhipMessage.GatherTimeout ""]).whips
      = []) :=
  ⟨by decide, C2_amended "" ""
    [WhipMessage.Sdp "p2" "v=0\n", WhipMessage.GatherTimeout ""] (by decide)⟩

/-- Claim C3, counterexample: with the default settings (address
`ws://127.0.0.1:8443`), the one request `do_whip` issues goes to the
hard-coded URL `http://192.168.86.3:7080/whip/endpoint/foo`, which is not the
configured address — the `address` setting is cloned at connect time into an
unused binding and never reaches `do_whip`. -/
theorem C3_counterexample :
    Settings.defaultSettings.address = some "ws://127.0.0.1:8443" ∧
    (do_whip failNet (fun s => some s) "p1" "v=0\n").2 =
      [{ url := "http://192.168.86.3:7080/whip/endpoint/foo",
         contentType := "application/sdp",
         body := "v=0\na=end-of-candidates\n" }] ∧
    whipEndpointUrl ≠ "ws://127.0.0.1:8443" := by
  refine ⟨rfl, by decide, by decide⟩

/-- Claim C3, amended: for every exchange, `do_whip` performs a single HTTP
POST with content-type `application/sdp` and body the composed SDP terminated
by the `a=end-of-candidates` line, but its destination is the hard-coded URL
`http://192.168.86.3:7080/whip/endpoint/foo`, not the configured `address`
setting (which is ignored). -/
theorem C3_amended (net : HttpRequest → Except Unit HttpResponse)
    (parseSdp : String → Option String) (peerId xsdp : String) :
    (do_whip net parseSdp peerId xsdp).2 =
      [{ url := whipEndpointUrl, contentType := "application/sdp",
         body := xsdp ++ "a=end-of-candidates\n" }] :=
  do_whip_requests net parseSdp peerId xsdp

/-- Claim C4, counterexample: an HTTP 500 response does not yield a
`Rejected{500}` error — `do_whip` never inspects the status, so the 500
response's body is parsed and delivered to the element as the SDP answer. -/
theorem C4_counterexample :
    (do_whip (okNet 500 none "v=0 answer") (fun s => some s) "p1" "v=0\n").1
      = DoWhipEffect.delivered "p1" "v=0 answer" := rfl

/-- Claim C4, amended: a network/connect failure makes `do_whip` return an
error, which the Ice arm surfaces as a signalling error, with no retry (a
single request is issued); but the HTTP status is never inspected, so any
non-2xx response (e.g. 500) has its body parsed and delivered as the answer
exactly like a 2xx one, and an unparseable answer body panics (`unwrap`)
instead of producing a recoverable error. -/
theorem C4_amended (parseSdp : String → Option String) (id xsdp : String)
    (status : Nat) (loc : Option String) (bodyA bodyB : String) :
    (do_whip failNet parseSdp id xsdp).1 = DoWhipEffect.transportFailed ∧
    iceArmCallbacks DoWhipEffect.transportFailed
      = [ElementCallback.signallingError] ∧
    (do_whip (okNet status loc bodyA) parseSdp id xsdp).2.length = 1 ∧
    (parseSdp bodyA = none →
      (do_whip (okNet status loc bodyA) parseSdp id xsdp).1
        = DoWhipEffect.panicked) ∧
    (∀ a, parseSdp bodyB = some a →
      (do_whip (okNet status loc bodyB) parseSdp id xsdp).1
        = DoWhipEffect.delivered id a) := by
  refine ⟨rfl, rfl, ?_, ?_, ?_⟩
  · rw [do_whip_requests]; rfl
  · intro h
    simp [do_whip, okNet, h]
  · intro a ha
    simp [do_whip, okNet, ha]

/-- A stub SDP parser that accepts exactly the body `"good"`. -/
def parseStub : String → Option String :=
  fun s => if s = "good" then some s else none

/-- Witness for C4_amended: concrete transport failure, concrete unparseable
500 response, and concrete parseable 500 response. -/
theorem C4_amended_witness :
    parseStub "bad" = none ∧
    parseStub "good" = some "good" ∧
    (do_whip failNet parseStub "p1" "v=0\n").1
      = DoWhipEffect.transportFailed ∧
    (do_whip (okNet 500 none "bad") parseStub "p1" "v=0\n").1
      = DoWhipEffect.panicked ∧
    (do_whip (okNet 500 none "good") parseStub "p1" "v=0\n").1
      = DoWhipEffect.delivered "p1" "good" :=
  ⟨by decide, by decide,
   (C4_amended parseStub "p1" "v=0\n" 500 none "bad" "good").1,
   (C4_amended parseStub "p1" "v=0\n" 500 none "bad" "good").2.2.2.1
     (by decide),
   (C4_amended parseStub "p1" "v=0\n" 500 none "bad" "good").2.2.2.2 "good"
     (by decide)⟩

/-- Claim C5, counterexample: calling `handle_sdp` while
`state.websocket_sender` is `None` (never connected or already stopped) does
nothing at all — the `if let Some` body is skipped, no delivery error is
reported, the offer is silently dropped. -/
theorem C5_counterexample :
    Signaller.handle_sdp false true "p1" "v=0\n"
      = FacadeOutcome.droppedSilently := rfl

/-- Claim C5, amended: when the mailbox sender is present but the send fails
(channel closed or full), the failure is reported to the element via the
error callback; when the sender is present and the send succeeds the offer is
enqueued; but when the mailbox is absent the offer is silently dropped with
no error reported. -/
theorem C5_amended (b : Bool) (id sdp : String) :
    Signaller.handle_sdp true false id sdp = FacadeOutcome.errorReported ∧
    Signaller.handle_sdp true true id sdp
      = FacadeOutcome.enqueued (WhipMessage.Sdp id sdp) ∧
    Signaller.handle_sdp false b id sdp = FacadeOutcome.droppedSilently :=
  ⟨rfl, rfl, rfl⟩

/-- Claim C6: `stop` with a live mailbox closes the channel so the sender
loop processes exactly the messages already queued and exits, clears the
sender and both task handles (both tasks joined before `stop` returns), logs
a send-task join failure instead of propagating it, and afterwards the
facade can no longer hand any message to the loop (`handle_sdp` on the
stopped state is a silent no-op), so no message is processed after `stop`
returns. -/
theorem C6_stop (xsdp : String) (st : State) (queued : List WhipMessage)
    (e : Bool) (h : st.websocket_sender = some queued) :
    (Signaller.stop xsdp st e).drained = sendLoop xsdp queued ∧
    (Signaller.stop xsdp st e).state =
      { websocket_sender := none, send_task_handle := false,
        receive_task_handle := false } ∧
    (Signaller.stop xsdp st e).sendJoinErrorLogged = e ∧
    (∀ sendOk id sdp,
      Signaller.handle_sdp
          (Signaller.stop xsdp st e).state.websocket_sender.isSome
          sendOk id sdp
        = FacadeOutcome.droppedSilently) := by
  cases st with
  | mk ws sh rh =>
    have h' : ws = some queued := h
    subst h'
    exact ⟨rfl, rfl, rfl, fun sendOk id sdp => rfl⟩

/-- Witness for C6_stop: a concrete connected state with one queued offer and
a failing send-task join. -/
theorem C6_stop_witness :
    (State.mk (some [WhipMessage.Sdp "p1" "v=0\n"]) true
        true).websocket_sender = some [WhipMessage.Sdp "p1" "v=0\n"] ∧
    ((Signaller.stop "" (State.mk (some [WhipMessage.Sdp "p1" "v=0\n"]) true
          true) true).drained
        = sendLoop "" [WhipMessage.Sdp "p1" "v=0\n"] ∧
    (Signaller.stop "" (State.mk (some [WhipMessage.Sdp "p1" "v=0\n"]) true
          true) true).state =
      { websocket_sender := none, send_task_handle := false,
        receive_task_handle := false } ∧
    (Signaller.stop "" (State.mk (some [WhipMessage.Sdp "p1" "v=0\n"]) true
          true) true).sendJoinErrorLogged = true ∧
    (∀ sendOk id sdp,
      Signaller.handle_sdp
          (Signaller.stop "" (State.mk (some [WhipMessage.Sdp "p1" "v=0\n"])
              true true) true).state.websocket_sender.isSome
          sendOk id sdp
        = FacadeOutcome.droppedSilently)) :=
  ⟨rfl, C6_stop "" (State.mk (some [WhipMessage.Sdp "p1" "v=0\n"]) true true)
    [WhipMessage.Sdp "p1" "v=0\n"] true rfl⟩

/-- Claim C7, counterexample: a `handle_ice` call with a present index is not
always enqueued — with `state.websocket_sender` absent (never connected or
already stopped), the `if let Some` has no else branch, so the constructed
candidate is silently dropped rather than enqueued. -/
theorem C7_counterexample :
    Signaller.handle_ice false true "p1" "candidate:1 1 udp 2 1.2.3.4 9 typ host"
        (some 0) = Except.ok FacadeOutcome.droppedSilently ∧
    FacadeOutcome.droppedSilently
      ≠ FacadeOutcome.enqueued
          (WhipMessage.Ice "p1" "candidate:1 1 udp 2 1.2.3.4 9 typ host" 0) :=
  ⟨rfl, by decide⟩

/-- Claim C7, amended: with a present `sdp_m_line_index`, `handle_ice`
constructs the `IceCandidate` message and returns normally (never panics),
but it is enqueued only when the mailbox sender is present and the send
succeeds: an absent sender silently drops the candidate, and a failed send is
reported as an error, not enqueued. With an absent index, the `unwrap` in the
message construction panics unconditionally (modelled as `Except.error`),
before the sender presence is even examined. -/
theorem C7_handle_ice (senderPresent sendOk : Bool) (id c : String)
    (n : Nat) :
    Signaller.handle_ice senderPresent sendOk id c none
      = Except.error "panic: unwrap on None" ∧
    Signaller.handle_ice true true id c (some n)
      = Except.ok (FacadeOutcome.enqueued (WhipMessage.Ice id c n)) ∧
    Signaller.handle_ice true false id c (some n)
      = Except.ok FacadeOutcome.errorReported ∧
    Signaller.handle_ice false sendOk id c (some n)
      = Except.ok FacadeOutcome.droppedSilently ∧
    (∃ r, Signaller.handle_ice senderPresent sendOk id c (some n)
      = Except.ok r) :=
  ⟨rfl, rfl, rfl, rfl, ⟨_, rfl⟩⟩

/-- Claim C8, counterexample: `ConsumerRemoved` does not destroy any
aggregation state — after an offer for `"p1"` is aggregated, processing
`ConsumerRemoved "p1"` leaves the composed buffer holding that offer intact
(the arm only prints via `fun_name`). -/
theorem C8_counterexample :
    (sendLoop ""
        [WhipMessage.Sdp "p1" "v=0\n",
         WhipMessage.ConsumerRemoved "p1"]).xsdp = "v=0\n" := by decide

/-- Claim C8, amended: processing `ConsumerRemoved` performs no exchange and
leaves the aggregation buffer (and everything else except a log line)
untouched; the part of the claim that does hold is that a session that never
contributes a sentinel Ice message — in particular one whose only fragment is
`ConsumerRemoved{id}` — never gets a `do_whip` call for its id. -/
theorem C8_amended (xsdp id : String) (msgs : List WhipMessage)
    (hid : ∀ c n, WhipMessage.Ice id c n ∉ msgs) :
    sendLoopStep xsdp (WhipMessage.ConsumerRemoved id)
      = { xsdp := xsdp, whips := [], spawned := [], logs := fun_name } ∧
    ∀ b, (id, b) ∉ (sendLoop xsdp msgs).whips := by
  refine ⟨rfl, ?_⟩
  intro b hb
  obtain ⟨c, n, hmem, _⟩ := sendLoop_whips_mem xsdp msgs (id, b) hb
  exact hid c n hmem

/-- Witness for C8_amended at the C8 scenario: `ConsumerRemoved "p3"` is the
only fragment ever processed for `"p3"`. -/
theorem C8_amended_witness :
    (∀ c n, WhipMessage.Ice "p3" c n
        ∉ [WhipMessage.ConsumerRemoved "p3"]) ∧
    (sendLoopStep "" (WhipMessage.ConsumerRemoved "p3")
      = { xsdp := "", whips := [], spawned := [], logs := fun_name } ∧
    ∀ b, ("p3", b) ∉ (sendLoop "" [WhipMessage.ConsumerRemoved "p3"]).whips) :=
  ⟨by intro c n hmem; simp at hmem,
   C8_amended "" "p3" [WhipMessage.ConsumerRemoved "p3"]
     (by intro c n hmem; simp at hmem)⟩

/-- Claim C9: when the sender loop processes a sentinel Ice message (text
containing `"candidate:18"`), `do_whip` is invoked with the buffer snapshot
taken before that candidate is appended — the POSTed body is that snapshot
plus only the `a=end-of-candidates` line, so the new candidate's own
attribute line is not part of it — and the `a=<candidate>` line is appended
to the shared buffer only afterwards. -/
theorem C9_snapshot (xsdp id candidate : String) (n : Nat)
    (h : isGatherSentinel candidate = true) :
    sendLoopStep xsdp (WhipMessage.Ice id candidate n) =
      { xsdp := xsdp ++ "a=" ++ candidate ++ "\n",
        whips := [(id, xsdp)], spawned := [],
        logs := ["..ice", "..18."] } ∧
    (∀ net parseSdp, (do_whip net parseSdp id xsdp).2 =
      [{ url := whipEndpointUrl, contentType := "application/sdp",
         body := xsdp ++ "a=end-of-candidates\n" }]) := by
  constructor
  · simp [sendLoopStep, h]
  · intro net parseSdp
    exact do_whip_requests net parseSdp id xsdp

/-- Witness for C9_snapshot at a concrete sentinel candidate processed on a
buffer already holding an offer. -/
theorem C9_snapshot_witness :
    isGatherSentinel "candidate:18 1 udp 2 0.0.0.0 9 typ host" = true ∧
    (sendLoopStep "v=0\n"
        (WhipMessage.Ice "p1" "candidate:18 1 udp 2 0.0.0.0 9 typ host" 0) =
      { xsdp := "v=0\n" ++ "a=" ++ "candidate:18 1 udp 2 0.0.0.0 9 typ host"
          ++ "\n",
        whips := [("p1", "v=0\n")], spawned := [],
        logs := ["..ice", "..18."] } ∧
    (∀ net parseSdp, (do_whip net parseSdp "p1" "v=0\n").2 =
      [{ url := whipEndpointUrl, contentType := "application/sdp",
         body := "v=0\n" ++ "a=end-of-candidates\n" }])) :=
  ⟨by decide,
   C9_snapshot "v=0\n" "p1" "candidate:18 1 udp 2 0.0.0.0 9 typ host" 0
     (by decide)⟩

/-- Claim C10: the fallback timer spawned by the Sdp arm always enqueues
`GatherTimeout` with the literal empty id, whatever the offer's session id
was, and the loop's `GatherTimeout` arm behaves identically for every id —
so no `GatherTimeout` message can be correlated to a specific session. -/
theorem C10_timer_id (xsdp id sdp : String) :
    (sendLoopStep xsdp (WhipMessage.Sdp id sdp)).spawned
      = [WhipMessage.GatherTimeout ""] ∧
    gatherTimerMessage = WhipMessage.GatherTimeout "" ∧
    (∀ x i, sendLoopStep x (WhipMessage.GatherTimeout i)
      = { xsdp := x, whips := [], spawned := [],
          logs := ["..GatherTimeout"] }) :=
  ⟨rfl, rfl, fun _ _ => rfl⟩

end Webrtcsink
